import Mathlib

/-!
Shallow embedding of the notebook `newmodel.ipynb`: a linear script that
sets up a steady-state heat-diffusion problem on a rectangular Cartesian
mesh, applies Dirichlet conditions on the top and bottom walls, invokes an
external solver, and checks that the average temperature is close to 0.5.

The data owned by the script (parameters, the arguments of the mesh construction,
the field data array, the wall index sets, the boundary assignments, the
final average-temperature check) is translated directly from the notebook
source. The external library operations the notebook delegates to (the mesh
node layout, the steady-state solve, the integral utility) are not part of
this repository; they are modelled from the spec where a claim needs them,
each such definition marked `Modelled from the spec:`.
-/

namespace NewModel

/-! ## Cell 2: model parameters and mesh construction -/

def boxHeight : ℚ := 1
def boxLength : ℚ := 2
def resx : ℕ := 16
def resy : ℕ := 8

/-- The arguments the notebook passes to `uw.mesh.FeMesh_Cartesian`. -/
structure FeMesh_Cartesian where
  elementType : String
  elementRes : ℕ × ℕ
  minCoord : ℚ × ℚ
  maxCoord : ℚ × ℚ
deriving Repr, DecidableEq

/-- The call `mesh = uw.mesh.FeMesh_Cartesian(elementType="Q1/dQ0",
elementRes=(resx,resy), minCoord=(0.,0.), maxCoord=(boxLength,boxHeight))`. -/
def mesh : FeMesh_Cartesian :=
  { elementType := "Q1/dQ0"
    elementRes := (resx, resy)
    minCoord := (0, 0)
    maxCoord := (boxLength, boxHeight) }

/-- Modelled from the spec: a Q1 Cartesian mesh of element resolution
`(nx, ny)` has `(nx+1)*(ny+1)` vertices, laid out row-major from the bottom
row. Number of nodes along x. -/
def nodeCountX (m : FeMesh_Cartesian) : ℕ := m.elementRes.1 + 1

/-- Modelled from the spec: number of nodes along y. -/
def nodeCountY (m : FeMesh_Cartesian) : ℕ := m.elementRes.2 + 1

/-- Modelled from the spec: total number of mesh vertices. -/
def numNodes (m : FeMesh_Cartesian) : ℕ := nodeCountX m * nodeCountY m

/-- Modelled from the spec: global index of the vertex in column `ix`,
row `iy` (row-major, bottom row first). -/
def nodeIndex (m : FeMesh_Cartesian) (ix iy : ℕ) : ℕ := iy * nodeCountX m + ix

/-! ## Cell 3: temperature field declaration and zero initialisation -/

/-- A mesh variable data array: one rational per node index.
`mesh.add_variable(nodeDofCount=1)` yields such an array with
unspecified initial contents. -/
abbrev FieldData : Type := ℕ → ℚ

/-- The assignment `temperatureField.data[:] = 0.`: every entry of the array (every valid
node index) is overwritten with zero; there are no entries beyond
`numNodes`, so the array is modelled as unchanged there. -/
def assignAll (m : FeMesh_Cartesian) (f : FieldData) (v : ℚ) : FieldData :=
  fun i => if i < numNodes m then v else f i

/-- The temperature field data just after cell 3, starting from arbitrary
initial contents `g` of the freshly declared variable. -/
def temperatureFieldData0 (g : FieldData) : FieldData := assignAll mesh g 0

/-! ## Cell 4: wall vertex sets and the Dirichlet condition -/

/-- Modelled from the spec: `mesh.specialSets["Bottom_VertexSet"]`, the
vertices of the bottom wall (row `iy = 0`). -/
def botWalls : Finset ℕ :=
  (Finset.range (nodeCountX mesh)).image (fun ix => nodeIndex mesh ix 0)

/-- Modelled from the spec: `mesh.specialSets["Top_VertexSet"]`, the
vertices of the top wall (row `iy = resy`). -/
def topWalls : Finset ℕ :=
  (Finset.range (nodeCountX mesh)).image (fun ix => nodeIndex mesh ix mesh.elementRes.2)

/-- The union `bcWalls = botWalls + topWalls`: index-set addition is set union. -/
def bcWalls : Finset ℕ := botWalls ∪ topWalls

/-- The notebook holds a single mesh variable; a Dirichlet condition stores
a reference to the variable it constrains. -/
inductive MeshVariableRef where
  | temperatureField
deriving Repr, DecidableEq

/-- The arguments the notebook passes to `uw.conditions.DirichletCondition`. -/
structure DirichletCondition where
  variableRef : MeshVariableRef
  indexSetsPerDof : List (Finset ℕ)
deriving DecidableEq

/-- The call `tempBC = uw.conditions.DirichletCondition(variable=temperatureField,
indexSetsPerDof=(bcWalls,))`. -/
def tempBC : DirichletCondition :=
  { variableRef := .temperatureField
    indexSetsPerDof := [bcWalls] }

/-! ## Cell 5: boundary value assignment -/

/-- The assignment `f.data[s] = v`: overwrite the entries indexed by the set `s` with `v`. -/
def assignOn (f : FieldData) (s : Finset ℕ) (v : ℚ) : FieldData :=
  fun i => if i ∈ s then v else f i

/-- The temperature field data after the two assignments of cell 5
(`data[botWalls] = 1.0` then `data[topWalls] = 0.0`), starting from the
zero-initialised field. -/
def temperatureFieldDataBC (g : FieldData) : FieldData :=
  assignOn (assignOn (temperatureFieldData0 g) botWalls 1) topWalls 0

/-- The field the solver sees: cell 6 only renders the figure and writes no
field data, so the field entering cell 8 is the cell-5 result. -/
def temperatureFieldDataBeforeSolve (g : FieldData) : FieldData :=
  temperatureFieldDataBC g

/-! ## Cell 8: the solve (external) -/

/-- Modelled from the spec: the steady-state heat equation with constant
diffusivity, no source term, bottom wall fixed at 1 and top wall fixed
at 0 has the linear equilibrium profile `T = 1 - y/boxHeight`; the solver
writes this profile into the field in place, so the node in row `iy`
holds `1 - iy/resy`. -/
def temperatureFieldDataSolved : FieldData :=
  fun i => 1 - ((i / nodeCountX mesh : ℕ) : ℚ) / (resy : ℚ)

/-! ## Cell 10: the average-temperature check -/

/-- Modelled from the spec: `uw.utils.Integral(field, mesh).evaluate()[0]`,
the integral of the Q1-interpolated field over the mesh. On each element
the bilinear interpolant integrates to the element area times the mean of
the four corner values. -/
def integralEvaluate (f : FieldData) (m : FeMesh_Cartesian) : ℚ :=
  let nx := m.elementRes.1
  let ny := m.elementRes.2
  let dx := (m.maxCoord.1 - m.minCoord.1) / (nx : ℚ)
  let dy := (m.maxCoord.2 - m.minCoord.2) / (ny : ℚ)
  (((List.range ny).map (fun ey =>
    (((List.range nx).map (fun ex =>
      dx * dy * (f (nodeIndex m ex ey) + f (nodeIndex m (ex + 1) ey) +
        f (nodeIndex m ex (ey + 1)) + f (nodeIndex m (ex + 1) (ey + 1))) / 4)).sum))).sum)

/-- Modelled from the default numpy tolerances: `np.isclose(a, b)` holds when
`|a - b| ≤ atol + rtol*|b|` with `rtol = 1e-5` and `atol = 1e-8`. -/
def isclose (a b : ℚ) : Bool := |a - b| ≤ 1 / 100000000 + (1 / 100000) * |b|

/-- The scalar `tottemp.evaluate()[0]` for the solved temperature field. -/
def tottempValue : ℚ := integralEvaluate temperatureFieldDataSolved mesh

/-- The average `avtemp = tottemp.evaluate()[0] / (boxHeight*boxLength)`. -/
def avtemp : ℚ := tottempValue / (boxHeight * boxLength)

/-- The conditional raise of cell 10: an `Except.error` models the raised
`RuntimeError`, `Except.ok` models falling through without raising. -/
def averageCheck (av : ℚ) : Except String Unit :=
  if isclose av (1 / 2) then Except.ok ()
  else Except.error "Incorrect average temperature produced by model. "

/-- Cell 10 as a state transformer: it computes the integral and the
average from the field and the mesh, then either raises or not, and
returns the (untouched) field and mesh alongside. -/
def cell10 (f : FieldData) (m : FeMesh_Cartesian) :
    Except String Unit × (FieldData × FeMesh_Cartesian) :=
  let tottemp := integralEvaluate f m
  let av := tottemp / (boxHeight * boxLength)
  (averageCheck av, (f, m))

/-! ## Cell order of the script -/

/-- The kinds of step performed by the code cells of the notebook. -/
inductive Step where
  | paramDecl
  | meshConstruct
  | fieldDeclInit
  | bcConstruct
  | bcAssign
  | visualization
  | solveInvocation
  | averageCheckStep
deriving Repr, DecidableEq, Fintype

/-- The steps of the code cells of the notebook in execution order: cell 2
declares the parameters and builds the mesh, cell 3 declares and zeroes the
field, cell 4 builds the Dirichlet condition, cell 5 assigns the boundary
values, cell 6 shows the figure, cell 8 builds and invokes the solver,
cell 9 shows the figure again, cell 10 runs the average check. -/
def notebookSteps : List Step :=
  [Step.paramDecl, Step.meshConstruct, Step.fieldDeclInit, Step.bcConstruct,
   Step.bcAssign, Step.visualization, Step.solveInvocation, Step.visualization,
   Step.averageCheckStep]

/-! ## Theorems -/

set_option maxRecDepth 100000
set_option maxHeartbeats 2000000

/-- The value to which the solve drives the average temperature: the exact
average of the solved field over the domain is one half. -/
theorem avtemp_eq_half : avtemp = 1 / 2 := by
  norm_num [avtemp, tottempValue, integralEvaluate, mesh, resx, resy, boxHeight, boxLength,
    nodeIndex, nodeCountX, temperatureFieldDataSolved, List.range_succ]

/-- The bottom wall and the top wall share no vertex. -/
theorem botWalls_disjoint_topWalls : ∀ i ∈ botWalls, i ∉ topWalls := by decide

/-- C1: In the end-to-end scenario (boxHeight=1, boxLength=2, resx=16, resy=8,
diffusivity=1, bottom boundary value 1, top boundary value 0) the average
temperature after the solve equals one half exactly, hence is numerically
close to 0.5, and the final check of cell 10 passes without raising. -/
theorem C1_end_to_end_average_check_passes :
    avtemp = 1 / 2 ∧ isclose avtemp (1 / 2) = true ∧
      averageCheck avtemp = Except.ok () := by
  have h : avtemp = 1 / 2 := avtemp_eq_half
  have hc : isclose avtemp (1 / 2) = true := by
    rw [h]
    simp only [isclose, decide_eq_true_eq]
    rw [show (1 : ℚ) / 2 - 1 / 2 = 0 by norm_num, abs_zero]
    positivity
  exact ⟨h, hc, by simp only [averageCheck, hc, if_true]⟩

/-- C2: Cell 10 raises a RuntimeError with the fixed message
"Incorrect average temperature produced by model. " exactly when the computed
average is not numerically close to 0.5, and raises nothing when it is. -/
theorem C2_check_raises_iff_not_close (av : ℚ) :
    (averageCheck av =
        Except.error "Incorrect average temperature produced by model. " ↔
      isclose av (1 / 2) = false) ∧
    (isclose av (1 / 2) = true → averageCheck av = Except.ok ()) := by
  unfold averageCheck
  cases h : isclose av (1 / 2) <;> simp [h]

/-- Witness for C2: the check passes at average one half and raises the fixed
message at average zero. -/
theorem C2_check_raises_iff_not_close_witness :
    averageCheck (1 / 2) = Except.ok () ∧
      averageCheck 0 =
        Except.error "Incorrect average temperature produced by model. " := by
  have hclose : isclose (1 / 2) (1 / 2) = true := by
    simp only [isclose, decide_eq_true_eq]
    rw [show (1 : ℚ) / 2 - 1 / 2 = 0 by norm_num, abs_zero]
    positivity
  have hfar : isclose 0 (1 / 2) = false := by
    simp only [isclose, decide_eq_false_iff_not, not_le]
    rw [show (0 : ℚ) - 1 / 2 = -(1 / 2) by norm_num, abs_neg,
      show |(1 : ℚ) / 2| = 1 / 2 by rw [abs_of_nonneg] ; norm_num]
    norm_num
  exact ⟨(C2_check_raises_iff_not_close (1 / 2)).2 hclose,
    (C2_check_raises_iff_not_close 0).1.mpr hfar⟩

/-- C3: The average temperature is the scalar of the integral utility applied
to the temperature field and the mesh, divided by boxHeight*boxLength, and
that divisor equals 2 for the given parameters. -/
theorem C3_avtemp_is_integral_over_area :
    avtemp = integralEvaluate temperatureFieldDataSolved mesh /
        (boxHeight * boxLength) ∧
      boxHeight * boxLength = 2 := by
  exact ⟨rfl, by norm_num [boxHeight, boxLength]⟩

/-- C4: Immediately after the temperature field is declared and cell 3 runs
its zero assignment, every entry of the data array (any node index, whatever
the initial contents of the fresh variable were) equals 0. -/
theorem C4_field_initialised_to_zero (g : FieldData) (i : ℕ)
    (h : i < numNodes mesh) : temperatureFieldData0 g i = 0 := by
  simp [temperatureFieldData0, assignAll, h]

/-- Witness for C4: node 3 of a field with arbitrary initial contents 5 is
zeroed by cell 3. -/
theorem C4_field_initialised_to_zero_witness :
    3 < numNodes mesh ∧ temperatureFieldData0 (fun _ => 5) 3 = 0 :=
  ⟨by decide, C4_field_initialised_to_zero (fun _ => 5) 3 (by decide)⟩

/-- C5: The Dirichlet condition object is built on the temperature field with
the single per-DOF index set bcWalls = botWalls + topWalls, and a node is
constrained by bcWalls exactly when it lies on the bottom wall or on the top
wall — no other node is in the set. -/
theorem C5_dirichlet_constrains_exactly_walls (i : ℕ) :
    tempBC.indexSetsPerDof = [bcWalls] ∧
    tempBC.variableRef = MeshVariableRef.temperatureField ∧
    (i ∈ bcWalls ↔ i ∈ botWalls ∨ i ∈ topWalls) := by
  exact ⟨rfl, rfl, by simp [bcWalls]⟩

/-- Witness for C5: the characterisation evaluated at node 0. -/
theorem C5_dirichlet_constrains_exactly_walls_witness :
    tempBC.indexSetsPerDof = [bcWalls] ∧
    tempBC.variableRef = MeshVariableRef.temperatureField ∧
    (0 ∈ bcWalls ↔ 0 ∈ botWalls ∨ 0 ∈ topWalls) :=
  C5_dirichlet_constrains_exactly_walls 0

/-- C6: After the two assignments of cell 5 and before the solve, every entry
indexed by the bottom-wall vertex set holds 1 and every entry indexed by the
top-wall vertex set holds 0, whatever the initial contents of the variable. -/
theorem C6_boundary_values_assigned (g : FieldData) (i : ℕ) :
    (i ∈ botWalls → temperatureFieldDataBC g i = 1) ∧
    (i ∈ topWalls → temperatureFieldDataBC g i = 0) := by
  constructor
  · intro hb
    have ht : i ∉ topWalls := botWalls_disjoint_topWalls i hb
    simp [temperatureFieldDataBC, assignOn, hb, ht]
  · intro ht
    simp [temperatureFieldDataBC, assignOn, ht]

/-- Witness for C6: bottom-wall node 0 holds 1 and top-wall node 136 holds 0
after cell 5, starting from a field filled with 7. -/
theorem C6_boundary_values_assigned_witness :
    (0 ∈ botWalls ∧ temperatureFieldDataBC (fun _ => 7) 0 = 1) ∧
    (136 ∈ topWalls ∧ temperatureFieldDataBC (fun _ => 7) 136 = 0) :=
  ⟨⟨by decide, (C6_boundary_values_assigned (fun _ => 7) 0).1 (by decide)⟩,
   ⟨by decide, (C6_boundary_values_assigned (fun _ => 7) 136).2 (by decide)⟩⟩

/-- C7 counterexample: the claim says the visualization step comes after the
solver invocation and that no step is repeated, but the visualization step
occurs twice in the notebook and its first occurrence (cell 6, position 5) is
before the solver invocation (cell 8, position 6). -/
theorem C7_counterexample_visualization_repeated :
    notebookSteps.count Step.visualization = 2 ∧
    notebookSteps.get? 5 = some Step.visualization ∧
    notebookSteps.get? 6 = some Step.solveInvocation := by decide

/-- C7 (amended): The notebook executes as a linear script in the order
parameter declaration, mesh construction, field declaration and
initialisation, boundary-condition construction, boundary assignment,
visualization, solver invocation, visualization again, average check. A
visualization occurs after the solver invocation and before the
average-temperature check, but visualization also occurs once before the
solver: it is the one repeated step, every other step occurring at most
once. -/
theorem C7_notebook_step_order :
    notebookSteps = [Step.paramDecl, Step.meshConstruct, Step.fieldDeclInit,
      Step.bcConstruct, Step.bcAssign, Step.visualization,
      Step.solveInvocation, Step.visualization, Step.averageCheckStep] ∧
    notebookSteps.get? 7 = some Step.visualization ∧
    notebookSteps.get? 8 = some Step.averageCheckStep ∧
    notebookSteps.count Step.visualization = 2 ∧
    (∀ s : Step, s ≠ Step.visualization → notebookSteps.count s ≤ 1) := by
  decide

/-- C8: The mesh is constructed as a Cartesian finite-element mesh with
element type Q1/dQ0, element resolution (16, 8) = (resx, resy), and domain
bounds from (0, 0) to (boxLength, boxHeight) = (2, 1). -/
theorem C8_mesh_construction_arguments :
    mesh.elementType = "Q1/dQ0" ∧
    mesh.elementRes = (resx, resy) ∧ (resx, resy) = (16, 8) ∧
    mesh.minCoord = (0, 0) ∧
    mesh.maxCoord = (boxLength, boxHeight) ∧
    (boxLength, boxHeight) = ((2 : ℚ), (1 : ℚ)) :=
  ⟨rfl, rfl, rfl, rfl, rfl, rfl⟩

/-- C9: The two boundary assignments of cell 5 touch only the wall entries:
every interior node (a valid node index on neither wall) still holds 0 in
the field the solver receives, cell 6 writing no field data. -/
theorem C9_interior_entries_still_zero (g : FieldData) (i : ℕ)
    (hm : i < numNodes mesh) (hb : i ∉ botWalls) (ht : i ∉ topWalls) :
    temperatureFieldDataBeforeSolve g i = 0 := by
  simp [temperatureFieldDataBeforeSolve, temperatureFieldDataBC, assignOn,
    hb, ht, temperatureFieldData0, assignAll, hm]

/-- Witness for C9: interior node 20 still holds 0 before the solve, starting
from a field filled with 9. -/
theorem C9_interior_entries_still_zero_witness :
    20 < numNodes mesh ∧ 20 ∉ botWalls ∧ 20 ∉ topWalls ∧
    temperatureFieldDataBeforeSolve (fun _ => 9) 20 = 0 :=
  ⟨by decide, by decide, by decide,
    C9_interior_entries_still_zero (fun _ => 9) 20 (by decide) (by decide)
      (by decide)⟩

/-- C10: The average-temperature check of cell 10 returns the field and the
mesh unchanged whatever it reads from them, and its only two outcomes are ok
(no raise) or the RuntimeError with the fixed message — on both paths the
state is exactly the input state. -/
theorem C10_check_leaves_state_unchanged (f : FieldData)
    (m : FeMesh_Cartesian) :
    (cell10 f m).2 = (f, m) ∧
    ((cell10 f m).1 = Except.ok () ∨
      (cell10 f m).1 =
        Except.error "Incorrect average temperature produced by model. ") := by
  refine ⟨rfl, ?_⟩
  unfold cell10 averageCheck
  cases isclose (integralEvaluate f m / (boxHeight * boxLength)) (1 / 2) <;>
    simp

/-- Witness for C10: the check leaves the solved field and the mesh of the
notebook unchanged. -/
theorem C10_check_leaves_state_unchanged_witness :
    (cell10 temperatureFieldDataSolved mesh).2 =
      (temperatureFieldDataSolved, mesh) :=
  (C10_check_leaves_state_unchanged temperatureFieldDataSolved mesh).1

end NewModel
